import Mathlib

/-!
Verification of the request-dispatch and script-execution gateway
(`handlers.py`) of the cloudomate package.

The Python source is shallowly embedded: pure fragments become Lean
functions, raised exceptions become `Except` errors, and the handler
objects' inputs (configuration values, the script registry, the request
body, the external execution bridge and credential store) become
explicit arguments.  Python 3 text strings are modelled as Lean
`String`/`List Char`; byte strings are kept distinct (`PyBytes`)
wherever the source's behaviour turns on the str/bytes difference — the
`base64.decodestring` call on a `str` header slice and the
`body in [None, ""]` test against a bytes body — while the return-value
extractor's lines are modelled as text, after the source's own
`line.decode()`.  Python string methods (`startswith`, `replace`,
`strip`, `split`, `upper`) are re-implemented below with Python's
documented semantics.
-/

deriving instance DecidableEq for Except

namespace Cloudomate

/-- Errors a handler can produce: a tornado `HTTPError(status, msg)` or an
uncaught Python `ValueError` (which aborts the response path). -/
inductive PyError where
  | httpError (status : Nat) (msg : String)
  | valueError (msg : String)
deriving DecidableEq

/-- Python `s.startswith(pre)`. -/
def pyStartswith (s pre : String) : Bool :=
  pre.data.isPrefixOf s.data

/-- Helper for Python `split`: prepend a character to the first chunk. -/
def consHead (c : Char) : List (List Char) → List (List Char)
  | [] => [[c]]
  | h :: t => (c :: h) :: t

/-- Python `s.split(sep)` (no maxsplit) on the character list of `s`. -/
def pySplitAll (sep : Char) : List Char → List (List Char)
  | [] => [[]]
  | c :: cs => if c = sep then [] :: pySplitAll sep cs else consHead c (pySplitAll sep cs)

/-- Python `s.lstrip()` on a character list. -/
def leftStrip (l : List Char) : List Char :=
  l.dropWhile Char.isWhitespace

/-- Python `s.rstrip()` on a character list. -/
def rightStrip (l : List Char) : List Char :=
  (leftStrip l.reverse).reverse

/-- Python `s.strip()` on a character list. -/
def pyStrip (l : List Char) : List Char :=
  rightStrip (leftStrip l)

/-- Python `s.upper()` (on the ASCII verb strings this is exactly
per-character uppercasing). -/
def pyUpper (s : String) : String :=
  String.mk (s.data.map Char.toUpper)

/-- The sentinel marking return-value lines in a script's stdout
(`handlers.py`, `find_return_values`). -/
def sentinel : String := "cloudomatethecloudgarage_return_value"

/-- Fuelled scanner behind `removeSentinel`; the fuel only serves to make
the recursion structural, every step consumes at least one character and
one unit of fuel, so fuel equal to the list length is always enough. -/
def removeSentinelAux : Nat → List Char → List Char
  | _, [] => []
  | 0, l => l
  | n + 1, c :: cs =>
    if sentinel.data.isPrefixOf (c :: cs) then
      removeSentinelAux n (cs.drop (sentinel.data.length - 1))
    else
      c :: removeSentinelAux n cs

/-- Python `line.replace(sentinel, "")`: delete every (non-overlapping,
left-to-right) occurrence of the sentinel. -/
def removeSentinel (l : List Char) : List Char :=
  removeSentinelAux l.length l

/-- Python dict assignment `d[k] = v` on an association-list model of a
dict: the binding for an existing key is overwritten in place, a new key
is appended. -/
def dictSet : List (String × String) → String → String → List (String × String)
  | [], k, v => [(k, v)]
  | (k0, v0) :: rest, k, v =>
    if k0 = k then (k, v) :: rest else (k0, v0) :: dictSet rest k v

/-- Python dict lookup `d[k]` (as an `Option`). -/
def dictGet : List (String × String) → String → Option String
  | [], _ => none
  | (k0, v0) :: rest, k => if k0 = k then some v0 else dictGet rest k

/-- One iteration of the `for line in output` loop of
`ScriptDetailsHandler.find_return_values`: a line starting with the
sentinel has all sentinel occurrences removed, is stripped, split on
every `=`, each piece stripped, and the result unpacked into exactly
`key, value`; any other number of pieces raises a `ValueError` exactly as
Python tuple unpacking does.  Lines are modelled as already-decoded text
(the source's `line.decode()`). -/
def frvStep (d : List (String × String)) (line : String) : Except PyError (List (String × String)) :=
  if pyStartswith line sentinel then
    match (pySplitAll '=' (pyStrip (removeSentinel line.data))).map pyStrip with
    | [k, v] => .ok (dictSet d (String.mk k) (String.mk v))
    | parts =>
      .error (.valueError
        (if parts.length < 2 then
          "ValueError: not enough values to unpack"
         else
          "ValueError: too many values to unpack"))
  else
    .ok d

/-- The extractor's loop over the stdout lines, threading the dict and
propagating the first raised error. -/
def frvFold : List (String × String) → List String → Except PyError (List (String × String))
  | d, [] => .ok d
  | d, line :: rest =>
    match frvStep d line with
    | .error e => .error e
    | .ok d1 => frvFold d1 rest

/-- `ScriptDetailsHandler.find_return_values` (handlers.py lines 273-283). -/
def find_return_values (output : List String) : Except PyError (List (String × String)) :=
  frvFold [] output

/-- A registered script's metadata as consumed by the handlers: its name,
its single declared HTTP method (a lowercase verb string), its output
mode (`"combined"` or not) and its discovery tags. -/
structure ScriptDescriptor where
  name : String
  http_method : String
  output : String
  tags : List String
deriving DecidableEq

/-- Modelled from the spec: the Registry's lookup-by-name capability
(`self.settings['scripts'].get(script_name, None)`); the scripts module
itself is not part of the source under verification. -/
def lookupScript (scripts : List ScriptDescriptor) (script_name : String) : Option ScriptDescriptor :=
  scripts.find? (fun s => s.name == script_name)

/-- The 404 message format string of `get_script` (handlers.py line 263). -/
def notFoundMsg (script_name : String) : String :=
  "Script with name \x27" ++ script_name ++ "\x27 not found"

/-- The 405 message format string of `get_script` (handlers.py line 269);
the accepted method is uppercased. -/
def wrongMethodMsg (script_name http_method : String) : String :=
  "Wrong HTTP method for script \x27" ++ script_name ++ "\x27. Use \x27"
    ++ pyUpper http_method ++ "\x27"

/-- `ScriptDetailsHandler.get_script` (handlers.py lines 259-271): look
the script up by name (404 when absent), short-circuit for `options`,
then reject a verb different from the script's declared method with a
405 naming the script and the uppercased accepted method. -/
def get_script (scripts : List ScriptDescriptor) (script_name http_method : String) :
    Except PyError ScriptDescriptor :=
  match lookupScript scripts script_name with
  | none => .error (.httpError 404 (notFoundMsg script_name))
  | some script =>
    if http_method = "options" then .ok script
    else if script.http_method ≠ http_method then
      .error (.httpError 405 (wrongMethodMsg script_name script.http_method))
    else .ok script

/-- The parsed JSON request body, passed through to the execution
bridge; modelled as a JSON-object association list. -/
abbrev Params := List (String × String)

/-- What the external execution bridge (`script.execute`) delivers once
the child process has exited: the exit code and the captured output
lines.  In `combined` output mode the source unpacks only
`(retcode, stdout)` and `stderr` is never consulted. -/
structure ExecOutcome where
  retcode : Int
  stdout : List String
  stderr : List String
deriving DecidableEq

/-- The JSON success envelope of a script run: `stderr` is present
exactly when the script's output mode is not `combined`. -/
inductive Envelope where
  | combined (stdout : List String) (return_values : List (String × String)) (retcode : Int)
  | separate (stdout : List String) (stderr : List String)
      (return_values : List (String × String)) (retcode : Int)
deriving DecidableEq

/-- A verb handler's successful response: whether the force-JSON mode
set the content-type header up front, and the JSON envelope. -/
structure VerbResponse where
  forced_json_header : Bool
  envelope : Envelope
deriving DecidableEq

/-- `ScriptDetailsHandler.get` (handlers.py lines 155-179): resolve the
script with verb `get`, run it, extract the return values and assemble
the envelope whose shape follows the script's output mode. -/
def handler_get (scripts : List ScriptDescriptor) (force_json : Bool) (script_name : String)
    (params : Params) (execute : Params → ExecOutcome) : Except PyError VerbResponse :=
  match get_script scripts script_name "get" with
  | .error e => .error e
  | .ok script =>
    let out := execute params
    if script.output = "combined" then
      match find_return_values out.stdout with
      | .error e => .error e
      | .ok rv => .ok ⟨force_json, .combined out.stdout rv out.retcode⟩
    else
      match find_return_values out.stdout with
      | .error e => .error e
      | .ok rv => .ok ⟨force_json, .separate out.stdout out.stderr rv out.retcode⟩

/-- `ScriptDetailsHandler.delete` (handlers.py lines 181-205). -/
def handler_delete (scripts : List ScriptDescriptor) (force_json : Bool) (script_name : String)
    (params : Params) (execute : Params → ExecOutcome) : Except PyError VerbResponse :=
  match get_script scripts script_name "delete" with
  | .error e => .error e
  | .ok script =>
    let out := execute params
    if script.output = "combined" then
      match find_return_values out.stdout with
      | .error e => .error e
      | .ok rv => .ok ⟨force_json, .combined out.stdout rv out.retcode⟩
    else
      match find_return_values out.stdout with
      | .error e => .error e
      | .ok rv => .ok ⟨force_json, .separate out.stdout out.stderr rv out.retcode⟩

/-- `ScriptDetailsHandler.put` (handlers.py lines 207-231). -/
def handler_put (scripts : List ScriptDescriptor) (force_json : Bool) (script_name : String)
    (params : Params) (execute : Params → ExecOutcome) : Except PyError VerbResponse :=
  match get_script scripts script_name "put" with
  | .error e => .error e
  | .ok script =>
    let out := execute params
    if script.output = "combined" then
      match find_return_values out.stdout with
      | .error e => .error e
      | .ok rv => .ok ⟨force_json, .combined out.stdout rv out.retcode⟩
    else
      match find_return_values out.stdout with
      | .error e => .error e
      | .ok rv => .ok ⟨force_json, .separate out.stdout out.stderr rv out.retcode⟩

/-- `ScriptDetailsHandler.post` (handlers.py lines 233-257). -/
def handler_post (scripts : List ScriptDescriptor) (force_json : Bool) (script_name : String)
    (params : Params) (execute : Params → ExecOutcome) : Except PyError VerbResponse :=
  match get_script scripts script_name "post" with
  | .error e => .error e
  | .ok script =>
    let out := execute params
    if script.output = "combined" then
      match find_return_values out.stdout with
      | .error e => .error e
      | .ok rv => .ok ⟨force_json, .combined out.stdout rv out.retcode⟩
    else
      match find_return_values out.stdout with
      | .error e => .error e
      | .ok rv => .ok ⟨force_json, .separate out.stdout out.stderr rv out.retcode⟩

/-- Modelled from the spec: the single generic verb handler the spec
says the four near-identical source handlers amount to, parameterized by
the one verb string that is compared against the script's declared
method. -/
def genericVerbHandler (verb : String) (scripts : List ScriptDescriptor) (force_json : Bool)
    (script_name : String) (params : Params) (execute : Params → ExecOutcome) :
    Except PyError VerbResponse :=
  match get_script scripts script_name verb with
  | .error e => .error e
  | .ok script =>
    let out := execute params
    if script.output = "combined" then
      match find_return_values out.stdout with
      | .error e => .error e
      | .ok rv => .ok ⟨force_json, .combined out.stdout rv out.retcode⟩
    else
      match find_return_values out.stdout with
      | .error e => .error e
      | .ok rv => .ok ⟨force_json, .separate out.stdout out.stderr rv out.retcode⟩

/-- The tail every verb handler runs after `get_script` succeeds:
post-process the execution outcome into the response envelope. -/
def execTail (script : ScriptDescriptor) (force_json : Bool) (out : ExecOutcome) :
    Except PyError VerbResponse :=
  match find_return_values out.stdout with
  | .error e => .error e
  | .ok rv =>
    .ok ⟨force_json,
      if script.output = "combined" then .combined out.stdout rv out.retcode
      else .separate out.stdout out.stderr rv out.retcode⟩

/-- The four lowercase verb strings the `/scripts/name` route dispatches
on. -/
def httpVerbs : List String := ["get", "post", "put", "delete"]

/-- The `tags` dict built by `ScriptNamesCollectionHandler.get` and
`ScriptCollectionHandler.get` (handlers.py lines 116 and 134). -/
structure TagDict where
  tags : List String
  not_tags : List String
  any_tags : List String
deriving DecidableEq

/-- Python `value.split(',')` producing strings. -/
def pySplitComma (s : String) : List String :=
  (pySplitAll ',' s.data).map String.mk

/-- The tag-argument loop shared by the two collection handlers
(handlers.py lines 116-123 and 134-141): probe `tags`, `not_tags`,
`any_tags` in that order against the query-string arguments (modelled as
the per-key value list `get_arguments` returns, `[]` when the parameter
is absent); the first key with a non-empty value list has its first
value comma-split and the loop breaks, leaving the other groups empty. -/
def parse_tag_args (args : String → List String) : TagDict :=
  match args "tags" with
  | v :: _ => { tags := pySplitComma v, not_tags := [], any_tags := [] }
  | [] =>
    match args "not_tags" with
    | v :: _ => { tags := [], not_tags := pySplitComma v, any_tags := [] }
    | [] =>
      match args "any_tags" with
      | v :: _ => { tags := [], not_tags := [], any_tags := pySplitComma v }
      | [] => { tags := [], not_tags := [], any_tags := [] }

/-- Modelled from the spec: the Registry's tag filtering (the scripts
module is not part of the source under verification).  A TagQuery
honours only the first non-empty group, in the order tags (all present),
not_tags (all absent), any_tags (at least one present); with no group
present every script matches. -/
def tagQueryMatches (q : TagDict) (scriptTags : List String) : Bool :=
  if q.tags ≠ [] then q.tags.all (fun t => scriptTags.contains t)
  else if q.not_tags ≠ [] then q.not_tags.all (fun t => !(scriptTags.contains t))
  else if q.any_tags ≠ [] then q.any_tags.any (fun t => scriptTags.contains t)
  else true

/-- The external credential store as `BaseHandler.is_user_authenticated`
consumes it: the user list of the configured htpasswd file and its
password check. -/
structure CredStore where
  users : List String
  check_password : String → String → Bool

/-- `BaseHandler.is_user_authenticated` (handlers.py lines 64-71). -/
def is_user_authenticated (store : CredStore) (username password : String) : Bool :=
  if !(store.users.contains username) then false
  else store.check_password username password

/-- How a request fares against `BaseHandler.handle_auth`: it proceeds to
the route handler, it is halted by `auth_challenge` with the given status
and response header, or an exception escapes. -/
inductive AuthOutcome where
  | proceed
  | halted (status : Nat) (header_name header_value : String)
  | exn (msg : String)
deriving DecidableEq

/-- `BaseHandler.auth_challenge` (handlers.py lines 73-78): set the
`WWW-Authenticate` header, status 401, and finish the request. -/
def auth_challenge : AuthOutcome :=
  .halted 401 "WWW-Authenticate" "Basic realm=cloudomate"

/-- A Python 3 `bytes` value, as its list of byte values.  Kept distinct
from `String` (a Python 3 `str`) wherever the source's behaviour depends
on the difference. -/
abbrev PyBytes := List Nat

/-- Modelled from Python 3.7's base64 module: `base64.decodestring` is
the deprecated alias of `decodebytes`, whose `_input_type_check` calls
`memoryview(s)` and raises `TypeError("expected bytes-like object, not
str")` whenever the argument is a `str`.  Tornado header values are
`str`, so in this program the call at handlers.py line 57 raises for
every Basic header; the argument is retained only for the call shape. -/
def base64_decodestring_of_str (_s : String) : Except String PyBytes :=
  .error "TypeError: expected bytes-like object, not str"

/-- `BaseHandler.handle_auth` (handlers.py lines 43-62) under Python 3
semantics.  The configured password file is modelled as an optional
`CredStore` (`none` when `config['passfile']` is `None`).  With a store
configured and a `Basic ` header present, line 57 calls
`base64.decodestring(auth_header[6:])` on the `str` header slice, which
raises a TypeError (see `base64_decodestring_of_str`), so lines 58-62
— `auth_decoded.split(':', 2)`, the `(username, password)` unpacking and
`is_user_authenticated` — are unreachable; were a bytes payload ever
produced, the very next line would still raise, because `bytes.split`
rejects the `str` separator `':'` (the dead branch below records that
TypeError). -/
def handle_auth (store : Option CredStore) (auth_header : Option String) : AuthOutcome :=
  match store with
  | none => .proceed
  | some _st =>
    match auth_header with
    | none => auth_challenge
    | some h =>
      if !(pyStartswith h "Basic ") then auth_challenge
      else
        match base64_decodestring_of_str (String.mk (h.data.drop 6)) with
        | .error e => .exn e
        | .ok _auth_decoded =>
          .exn "TypeError: a bytes-like object is required, not \x27str\x27"

/-- The 400 message of `BaseHandler.handle_params` (handlers.py line 41). -/
def onlyJsonMsg : String :=
  "This application only support json, please set the http header Content-Type to application/json"

/-- Modelled from Python 3 semantics: a `bytes` value never compares
equal to a `str` value (`b"" == ""` is `False`), so the membership test
`self.request.body in [None, ""]` at handlers.py line 35 succeeds only
on `None`. -/
def pyEqBytesStr (_b : PyBytes) (_s : String) : Bool := false

/-- `BaseHandler.handle_params` (handlers.py lines 28-41) under Python 3
semantics: default the Content-Type to `application/json` when the
header is absent; inside the JSON branch (taken when the content type
starts with `application/json` or force-JSON mode is on) the source
tests `self.request.body in [None, ""]` — the body Tornado delivers is
`None` or `bytes`, and a bytes body never equals the `str` `""` (see
`pyEqBytesStr`), so only an absent body leaves the params empty and
every bytes body, the empty `b""` included, is handed to `json.loads`
(a caller-supplied decoder whose failures are ValueErrors —
`JSONDecodeError` is a ValueError subclass — never 400s); any other
content type without force-JSON raises `HTTPError(400, ...)`. -/
def handle_params (force_json : Bool) (loads : PyBytes → Except String Params)
    (content_type_header : Option String) (body : Option PyBytes) : Except PyError Params :=
  let content_type := content_type_header.getD "application/json"
  if pyStartswith content_type "application/json" || force_json then
    match body with
    | none => .ok []
    | some b => if pyEqBytesStr b "" then .ok [] else (loads b).mapError .valueError
  else
    .error (.httpError 400 onlyJsonMsg)

/-- Modelled from Python's json module, at the one input where the
counterexample below consults it: `json.loads` on the empty document
`b""` raises `json.decoder.JSONDecodeError("Expecting value: line 1
column 1 (char 0)")`.  (The function returns that error at every input;
no successful parse is ever consulted.) -/
def json_loads_empty_raises : PyBytes → Except String Params :=
  fun _ => .error "JSONDecodeError: Expecting value: line 1 column 1 (char 0)"

/-- Discriminator used to state when `handle_params` failed specifically
with a 400. -/
def is400 : Except PyError Params → Bool
  | .error (.httpError 400 _) => true
  | _ => false

/-- A concrete registered script used by witnesses. -/
def helloScript : ScriptDescriptor := ⟨"hello", "get", "combined", ["demo"]⟩

/-- A concrete registry used by witnesses. -/
def demoScripts : List ScriptDescriptor := [helloScript]

/-- A concrete credential store used by witnesses: one user `user` whose
password is `secret`. -/
def demoStore : CredStore := ⟨["user"], fun _ p => p == "secret"⟩

end Cloudomate

namespace Cloudomate

theorem consHead_ne_nil (c : Char) (L : List (List Char)) : consHead c L ≠ [] := by
  cases L <;> simp [consHead]

theorem pySplitAll_ne_nil (sep : Char) (l : List Char) : pySplitAll sep l ≠ [] := by
  cases l with
  | nil => simp [pySplitAll]
  | cons c cs =>
    simp only [pySplitAll]
    split
    · simp
    · exact consHead_ne_nil _ _

theorem pySplitAll_of_not_mem {sep : Char} {l : List Char} (h : sep ∉ l) :
    pySplitAll sep l = [l] := by
  induction l with
  | nil => rfl
  | cons c cs ih =>
    have hc : ¬ c = sep := fun he => h (he ▸ List.mem_cons_self c cs)
    rw [pySplitAll, if_neg hc, ih (fun hm => h (List.mem_cons_of_mem c hm))]
    rfl

theorem pySplitAll_append_sep {sep : Char} {u : List Char} (w : List Char) (hu : sep ∉ u) :
    pySplitAll sep (u ++ sep :: w) = u :: pySplitAll sep w := by
  induction u with
  | nil => simp [pySplitAll]
  | cons a u1 ih =>
    have ha : ¬ a = sep := fun he => hu (he ▸ List.mem_cons_self a u1)
    rw [List.cons_append, pySplitAll, if_neg ha, ih (fun hm => hu (List.mem_cons_of_mem a hm))]
    rfl

theorem dropWhile_append_mid (p : Char → Bool) (u : List Char) {c : Char} (w : List Char)
    (hc : p c = false) : (u ++ c :: w).dropWhile p = u.dropWhile p ++ c :: w := by
  induction u with
  | nil => simp [List.dropWhile_cons, hc]
  | cons a u1 ih =>
    by_cases ha : p a
    · simp [List.dropWhile_cons, ha, ih]
    · simp [List.dropWhile_cons, ha]

theorem dropWhile_append_gen (p : Char → Bool) (u v : List Char) :
    (u ++ v).dropWhile p
      = if (u.dropWhile p).isEmpty then v.dropWhile p else u.dropWhile p ++ v := by
  induction u with
  | nil => simp
  | cons a u1 ih =>
    by_cases ha : p a
    · simp [List.dropWhile_cons, ha, ih]
    · simp [List.dropWhile_cons, ha]

theorem dropWhile_idem (p : Char → Bool) (l : List Char) :
    (l.dropWhile p).dropWhile p = l.dropWhile p := by
  induction l with
  | nil => rfl
  | cons c cs ih =>
    by_cases hc : p c
    · simp [List.dropWhile_cons, hc, ih]
    · simp [List.dropWhile_cons, hc]

theorem leftStrip_append_mid {c : Char} (u w : List Char) (hc : c.isWhitespace = false) :
    leftStrip (u ++ c :: w) = leftStrip u ++ c :: w :=
  dropWhile_append_mid _ u w hc

theorem rightStrip_append_mid {c : Char} (u w : List Char) (hc : c.isWhitespace = false) :
    rightStrip (u ++ c :: w) = u ++ c :: rightStrip w := by
  unfold rightStrip leftStrip
  have h1 : (u ++ c :: w).reverse = w.reverse ++ c :: u.reverse := by simp
  rw [h1, dropWhile_append_mid _ _ _ hc]
  simp

theorem leftStrip_idem (l : List Char) : leftStrip (leftStrip l) = leftStrip l :=
  dropWhile_idem _ l

theorem rightStrip_idem (l : List Char) : rightStrip (rightStrip l) = rightStrip l := by
  unfold rightStrip leftStrip
  rw [List.reverse_reverse, dropWhile_idem]

theorem leftStrip_cons_true {c : Char} (l : List Char) (hc : c.isWhitespace = true) :
    leftStrip (c :: l) = leftStrip l := by
  simp [leftStrip, List.dropWhile_cons, hc]

theorem leftStrip_cons_false {c : Char} (l : List Char) (hc : c.isWhitespace = false) :
    leftStrip (c :: l) = c :: l := by
  simp [leftStrip, List.dropWhile_cons, hc]

theorem rightStrip_cons_false {c : Char} (l : List Char) (hc : c.isWhitespace = false) :
    rightStrip (c :: l) = c :: rightStrip l := by
  have := rightStrip_append_mid (c := c) [] l hc
  simpa using this

theorem rightStrip_cons_true {c : Char} (l : List Char) (hc : c.isWhitespace = true) :
    rightStrip (c :: l) = if rightStrip l = [] then [] else c :: rightStrip l := by
  unfold rightStrip leftStrip
  rw [List.reverse_cons, dropWhile_append_gen]
  by_cases h : (l.reverse.dropWhile Char.isWhitespace).isEmpty
  · rw [if_pos h]
    have h2 : (l.reverse.dropWhile Char.isWhitespace).reverse = [] := by
      rw [List.isEmpty_iff] at h
      simp [h]
    rw [if_pos h2]
    simp [List.dropWhile_cons, hc]
  · rw [if_neg h]
    have h2 : ¬ (l.reverse.dropWhile Char.isWhitespace).reverse = [] := by
      rw [List.isEmpty_iff] at h
      simpa using h
    rw [if_neg h2]
    simp

theorem leftStrip_rightStrip_comm (l : List Char) :
    leftStrip (rightStrip l) = rightStrip (leftStrip l) := by
  induction l with
  | nil => rfl
  | cons c cs ih =>
    by_cases hc : c.isWhitespace
    · rw [rightStrip_cons_true cs hc, leftStrip_cons_true cs hc]
      by_cases h : rightStrip cs = []
      · rw [if_pos h, ← ih, h]
      · rw [if_neg h, leftStrip_cons_true _ hc, ih]
    · have hc2 : c.isWhitespace = false := by simpa using hc
      rw [rightStrip_cons_false cs hc2, leftStrip_cons_false _ hc2,
        leftStrip_cons_false cs hc2, rightStrip_cons_false cs hc2]

theorem pyStrip_leftStrip (l : List Char) : pyStrip (leftStrip l) = pyStrip l := by
  unfold pyStrip
  rw [leftStrip_idem]

theorem pyStrip_rightStrip (l : List Char) : pyStrip (rightStrip l) = pyStrip l := by
  unfold pyStrip
  rw [← leftStrip_rightStrip_comm, ← leftStrip_rightStrip_comm, rightStrip_idem]

theorem pyStrip_append_mid {c : Char} (u w : List Char) (hc : c.isWhitespace = false) :
    pyStrip (u ++ c :: w) = leftStrip u ++ c :: rightStrip w := by
  unfold pyStrip
  rw [leftStrip_append_mid u w hc, rightStrip_append_mid (leftStrip u) w hc]

theorem mem_of_mem_dropWhile {p : Char → Bool} {x : Char} :
    ∀ {l : List Char}, x ∈ l.dropWhile p → x ∈ l := by
  intro l
  induction l with
  | nil => intro h; simp at h
  | cons c cs ih =>
    intro h
    by_cases hc : p c
    · rw [List.dropWhile_cons, if_pos hc] at h
      exact List.mem_cons_of_mem c (ih h)
    · rw [List.dropWhile_cons, if_neg hc] at h
      exact h

theorem mem_of_mem_leftStrip {x : Char} {l : List Char} (h : x ∈ leftStrip l) : x ∈ l :=
  mem_of_mem_dropWhile h

theorem mem_of_mem_rightStrip {x : Char} {l : List Char} (h : x ∈ rightStrip l) : x ∈ l := by
  unfold rightStrip leftStrip at h
  rw [List.mem_reverse] at h
  have := mem_of_mem_dropWhile h
  simpa using this

theorem mem_of_mem_pyStrip {x : Char} {l : List Char} (h : x ∈ pyStrip l) : x ∈ l :=
  mem_of_mem_leftStrip (mem_of_mem_rightStrip h)

theorem removeSentinelAux_congr :
    ∀ (n m : Nat) (l : List Char), l.length ≤ n → l.length ≤ m →
      removeSentinelAux n l = removeSentinelAux m l := by
  intro n
  induction n with
  | zero =>
    intro m l hn _
    have : l = [] := List.length_eq_zero.mp (Nat.le_zero.mp hn)
    subst this
    cases m <;> simp [removeSentinelAux]
  | succ n ih =>
    intro m l hn hm
    cases l with
    | nil => cases m <;> simp [removeSentinelAux]
    | cons c cs =>
      cases m with
      | zero => simp at hm
      | succ m =>
        simp only [removeSentinelAux]
        by_cases hp : sentinel.data.isPrefixOf (c :: cs)
        · rw [if_pos hp, if_pos hp]
          apply ih
          · simp only [List.length_drop]
            simp only [List.length_cons] at hn
            omega
          · simp only [List.length_drop]
            simp only [List.length_cons] at hm
            omega
        · rw [if_neg hp, if_neg hp]
          have : removeSentinelAux n cs = removeSentinelAux m cs := by
            apply ih
            · simp only [List.length_cons] at hn
              omega
            · simp only [List.length_cons] at hm
              omega
          rw [this]

theorem removeSentinel_cons (c : Char) (cs : List Char) :
    removeSentinel (c :: cs)
      = if sentinel.data.isPrefixOf (c :: cs) then
          removeSentinel (cs.drop (sentinel.data.length - 1))
        else
          c :: removeSentinel cs := by
  unfold removeSentinel
  rw [show (c :: cs).length = cs.length + 1 from rfl]
  simp only [removeSentinelAux]
  by_cases hp : sentinel.data.isPrefixOf (c :: cs)
  · rw [if_pos hp, if_pos hp]
    apply removeSentinelAux_congr
    · simp only [List.length_drop]
      omega
    · exact Nat.le_refl _
  · rw [if_neg hp, if_neg hp]

theorem isPrefixOf_append_self : ∀ (u t : List Char), u.isPrefixOf (u ++ t) = true := by
  intro u t
  induction u with
  | nil => simp [List.isPrefixOf]
  | cons a u1 ih => simp [List.isPrefixOf, ih]

theorem sentinel_data_eq :
    sentinel.data = 'c' :: ("loudomatethecloudgarage_return_value").data := rfl

theorem removeSentinel_sentinel_append (r : List Char) :
    removeSentinel (sentinel.data ++ r) = removeSentinel r := by
  rw [sentinel_data_eq, List.cons_append, removeSentinel_cons, ← List.cons_append,
    ← sentinel_data_eq, isPrefixOf_append_self]
  simp only [if_true]
  rw [List.drop_left' (by rw [sentinel_data_eq]; rfl)]

theorem mem_removeSentinelAux :
    ∀ (n : Nat) (l : List Char) (x : Char), x ∈ removeSentinelAux n l → x ∈ l := by
  intro n
  induction n with
  | zero =>
    intro l x h
    cases l with
    | nil => simp [removeSentinelAux] at h
    | cons c cs => simpa [removeSentinelAux] using h
  | succ n ih =>
    intro l x h
    cases l with
    | nil => simp [removeSentinelAux] at h
    | cons c cs =>
      simp only [removeSentinelAux] at h
      by_cases hp : sentinel.data.isPrefixOf (c :: cs)
      · rw [if_pos hp] at h
        exact List.mem_cons_of_mem c (List.mem_of_mem_drop (ih _ x h))
      · rw [if_neg hp] at h
        rcases List.mem_cons.mp h with he | hm
        · exact he ▸ List.mem_cons_self c cs
        · exact List.mem_cons_of_mem c (ih _ x hm)

theorem mem_removeSentinel {x : Char} {l : List Char} (h : x ∈ removeSentinel l) : x ∈ l :=
  mem_removeSentinelAux l.length l x h

theorem dictGet_dictSet_self :
    ∀ (d : List (String × String)) (k v : String), dictGet (dictSet d k v) k = some v := by
  intro d
  induction d with
  | nil => intro k v; simp [dictSet, dictGet]
  | cons kv rest ih =>
    intro k v
    obtain ⟨k0, v0⟩ := kv
    by_cases hk : k0 = k
    · simp [dictSet, hk, dictGet]
    · simp [dictSet, hk, dictGet, ih]

theorem frvFold_append (d : List (String × String)) (l1 l2 : List String) :
    frvFold d (l1 ++ l2)
      = match frvFold d l1 with
        | .error e => .error e
        | .ok d1 => frvFold d1 l2 := by
  induction l1 generalizing d with
  | nil => simp [frvFold]
  | cons x t ih =>
    simp only [List.cons_append, frvFold]
    cases h : frvStep d x with
    | error e => rfl
    | ok d1 => exact ih d1

theorem data_mk (l : List Char) : (String.mk l).data = l := rfl

theorem pyStartswith_sentinel_append (r : List Char) :
    pyStartswith (String.mk (sentinel.data ++ r)) sentinel = true := by
  unfold pyStartswith
  rw [data_mk]
  exact isPrefixOf_append_self _ _

theorem eq_isWhitespace_false : ('=').isWhitespace = false := rfl

theorem frvStep_sentinel_no_eq (d : List (String × String)) (r : List Char) (hr : '=' ∉ r) :
    frvStep d (String.mk (sentinel.data ++ r))
      = .error (.valueError "ValueError: not enough values to unpack") := by
  unfold frvStep
  rw [if_pos (pyStartswith_sentinel_append r), data_mk, removeSentinel_sentinel_append]
  have h1 : '=' ∉ removeSentinel r := fun hm => hr (mem_removeSentinel hm)
  have h2 : '=' ∉ pyStrip (removeSentinel r) := fun hm => h1 (mem_of_mem_pyStrip hm)
  rw [pySplitAll_of_not_mem h2]
  simp

/-- C4: when two sentinel-prefixed stdout lines bind the same key, the
extracted mapping holds the value of the later line: overwriting a key in
the dict model always yields the second value on lookup, whatever the
prior dict state, and on the concrete stdout binding `foo` to `bar` and
then to `baz` the extractor returns the mapping sending `foo` to `baz`. -/
theorem return_values_last_wins :
    (∀ (d : List (String × String)) (k v1 v2 : String),
        dictGet (dictSet (dictSet d k v1) k v2) k = some v2)
    ∧ find_return_values ["cloudomatethecloudgarage_return_value foo = bar",
        "cloudomatethecloudgarage_return_value foo = baz"] = .ok [("foo", "baz")] := by
  constructor
  · intro d k v1 v2
    exact dictGet_dictSet_self (dictSet d k v1) k v2
  · decide

/-- C5 counterexample: on the sentinel line whose value part contains a
further `=`, the extractor does not record the pair `("foo", "a=b")` the
claim describes; the source splits on every `=` and the unpacking of the
three pieces raises a ValueError, failing the response path. -/
theorem find_return_values_second_eq_raises :
    find_return_values ["cloudomatethecloudgarage_return_value foo = a=b"]
      = .error (.valueError "ValueError: too many values to unpack") := by
  decide

/-- C5 (amended): for every stdout line beginning with the sentinel whose
remainder contains exactly one `=` (and no further sentinel occurrence,
since the source replaces every occurrence), the extractor splits the
remainder at that `=` into key and value, trims surrounding whitespace
from both, and records that pair over any prior dict state; a remainder
with more than one `=` instead raises an unpacking ValueError (see the
counterexample). -/
theorem return_value_line_single_eq_records_pair
    (d : List (String × String)) (a b : List Char)
    (ha : '=' ∉ a) (hb : '=' ∉ b)
    (hrs : removeSentinel (a ++ '=' :: b) = a ++ '=' :: b) :
    frvStep d (String.mk (sentinel.data ++ (a ++ '=' :: b)))
      = .ok (dictSet d (String.mk (pyStrip a)) (String.mk (pyStrip b))) := by
  unfold frvStep
  rw [if_pos (pyStartswith_sentinel_append _), data_mk, removeSentinel_sentinel_append, hrs,
    pyStrip_append_mid a b eq_isWhitespace_false]
  have hla : '=' ∉ leftStrip a := fun hm => ha (mem_of_mem_leftStrip hm)
  have hrb : '=' ∉ rightStrip b := fun hm => hb (mem_of_mem_rightStrip hm)
  rw [pySplitAll_append_sep _ hla, pySplitAll_of_not_mem hrb]
  simp only [List.map_cons, List.map_nil, pyStrip_leftStrip, pyStrip_rightStrip]

/-- Witness for C5 (amended) at the concrete line
`cloudomatethecloudgarage_return_value foo = bar`. -/
theorem return_value_line_single_eq_records_pair_witness :
    frvStep [] (String.mk (sentinel.data ++ ((" foo ").data ++ '=' :: (" bar").data)))
      = .ok [("foo", "bar")] :=
  return_value_line_single_eq_records_pair [] (" foo ").data (" bar").data
    (by decide) (by decide) (by decide)

/-- C6: a stdout line that begins with the sentinel but contains no `=`
makes the extractor raise (the response path of the request fails with a
ValueError) rather than skip the line or deliver a partial mapping,
whatever the surrounding stdout lines. -/
theorem sentinel_line_without_eq_raises (pre post : List String) (r : List Char)
    (hr : '=' ∉ r) :
    ∃ e, find_return_values (pre ++ String.mk (sentinel.data ++ r) :: post) = .error e := by
  unfold find_return_values
  rw [frvFold_append]
  cases hpre : frvFold [] pre with
  | error e => exact ⟨e, rfl⟩
  | ok d1 =>
    refine ⟨.valueError "ValueError: not enough values to unpack", ?_⟩
    simp only [frvFold, frvStep_sentinel_no_eq d1 r hr]

/-- Witness for C6 at the concrete line
`cloudomatethecloudgarage_return_value nokey`. -/
theorem sentinel_line_without_eq_raises_witness :
    ∃ e, find_return_values [String.mk (sentinel.data ++ (" nokey").data)] = .error e :=
  sentinel_line_without_eq_raises [] [] (" nokey").data (by decide)

/-- C1: for a registered script (declaring one of the four verbs),
resolving it with exactly the declared verb hands the script to the verb
handler (which then unconditionally executes it: see the third conjunct,
where the generic verb handler's result is exactly the execution
post-processing), while resolving it with any other of the four verbs
raises `HTTPError(405)` with a message naming the script and the single
accepted method uppercased. -/
theorem get_script_method_enforcement (scripts : List ScriptDescriptor) (script_name : String)
    (s : ScriptDescriptor) (hfind : lookupScript scripts script_name = some s)
    (hm : s.http_method ∈ httpVerbs) :
    get_script scripts script_name s.http_method = .ok s
    ∧ (∀ v ∈ httpVerbs, v ≠ s.http_method →
        get_script scripts script_name v
          = .error (.httpError 405 (wrongMethodMsg script_name s.http_method)))
    ∧ (∀ (fj : Bool) (params : Params) (ex : Params → ExecOutcome),
        genericVerbHandler s.http_method scripts fj script_name params ex
          = execTail s fj (ex params)) := by
  have hnotopt : s.http_method ≠ "options" := by
    intro he
    rw [he] at hm
    exact absurd hm (by decide)
  have hok : get_script scripts script_name s.http_method = .ok s := by
    unfold get_script
    simp only [hfind]
    rw [if_neg hnotopt, if_neg (by simp)]
  refine ⟨hok, ?_, ?_⟩
  · intro v hv hne
    have hvnotopt : v ≠ "options" := by
      simp only [httpVerbs, List.mem_cons, List.not_mem_nil, or_false] at hv
      rcases hv with rfl | rfl | rfl | rfl <;> decide
    unfold get_script
    simp only [hfind]
    rw [if_neg hvnotopt, if_pos (Ne.symm hne)]
  · intro fj params ex
    unfold genericVerbHandler execTail
    simp only [hok]
    cases hfrv : find_return_values (ex params).stdout with
    | error e => by_cases ho : s.output = "combined" <;> simp [hfrv, ho]
    | ok rv => by_cases ho : s.output = "combined" <;> simp [hfrv, ho]

/-- Witness for C1: the `hello` script declares `get`; a `post` request
is rejected with the 405 message naming `hello` and `GET`, and a `get`
request resolves the script. -/
theorem get_script_method_enforcement_witness :
    get_script demoScripts "hello" "get" = .ok helloScript
    ∧ get_script demoScripts "hello" "post"
        = .error (.httpError 405 (wrongMethodMsg "hello" "get")) := by
  have h := get_script_method_enforcement demoScripts "hello" helloScript
    (by decide) (by decide)
  exact ⟨h.1, h.2.1 "post" (by decide) (by decide)⟩

/-- C2: for a script name absent from the registry, `get_script` raises
`HTTPError(404)` with a message naming the requested script, for every
verb (`options` included), and each of the four verb handlers fails with
that 404 without consuming the execution bridge (the error holds for
every `execute` argument, so no script runs). -/
theorem get_script_unknown_not_found (scripts : List ScriptDescriptor) (script_name : String)
    (habs : lookupScript scripts script_name = none) :
    (∀ verb, get_script scripts script_name verb
        = .error (.httpError 404 (notFoundMsg script_name)))
    ∧ (∀ (fj : Bool) (params : Params) (ex : Params → ExecOutcome),
        handler_get scripts fj script_name params ex
            = .error (.httpError 404 (notFoundMsg script_name))
        ∧ handler_post scripts fj script_name params ex
            = .error (.httpError 404 (notFoundMsg script_name))
        ∧ handler_put scripts fj script_name params ex
            = .error (.httpError 404 (notFoundMsg script_name))
        ∧ handler_delete scripts fj script_name params ex
            = .error (.httpError 404 (notFoundMsg script_name))) := by
  have hg : ∀ verb, get_script scripts script_name verb
      = .error (.httpError 404 (notFoundMsg script_name)) := by
    intro verb
    unfold get_script
    simp only [habs]
  refine ⟨hg, ?_⟩
  intro fj params ex
  refine ⟨?_, ?_, ?_, ?_⟩
  · unfold handler_get
    simp only [hg "get"]
  · unfold handler_post
    simp only [hg "post"]
  · unfold handler_put
    simp only [hg "put"]
  · unfold handler_delete
    simp only [hg "delete"]

/-- Witness for C2 at the empty registry and the name `nosuch`. -/
theorem get_script_unknown_not_found_witness :
    get_script [] "nosuch" "get" = .error (.httpError 404 (notFoundMsg "nosuch"))
    ∧ handler_post [] false "nosuch" [] (fun _ => ⟨0, [], []⟩)
        = .error (.httpError 404 (notFoundMsg "nosuch")) := by
  have h := get_script_unknown_not_found [] "nosuch" (by decide)
  exact ⟨h.1 "get", (h.2 false [] (fun _ => ⟨0, [], []⟩)).2.1⟩

/-- C3: the tag-argument loop probes `tags`, then `not_tags`, then
`any_tags`, in that fixed order, and the first key whose value list is
non-empty has its first value comma-split while the other two groups stay
empty; on the concrete query `tags=a,b&not_tags=c` only the `tags` branch
is honoured; and when none of the three keys is present the parsed query
matches every script under the spec's tag filter. -/
theorem tag_query_precedence :
    (∀ (args : String → List String) (v : String) (rest : List String),
        args "tags" = v :: rest →
        parse_tag_args args = ⟨pySplitComma v, [], []⟩)
    ∧ (∀ (args : String → List String) (v : String) (rest : List String),
        args "tags" = [] → args "not_tags" = v :: rest →
        parse_tag_args args = ⟨[], pySplitComma v, []⟩)
    ∧ (∀ (args : String → List String) (v : String) (rest : List String),
        args "tags" = [] → args "not_tags" = [] → args "any_tags" = v :: rest →
        parse_tag_args args = ⟨[], [], pySplitComma v⟩)
    ∧ (∀ (args : String → List String),
        args "tags" = [] → args "not_tags" = [] → args "any_tags" = [] →
        parse_tag_args args = ⟨[], [], []⟩
        ∧ ∀ scriptTags, tagQueryMatches (parse_tag_args args) scriptTags = true)
    ∧ parse_tag_args
        (fun k => if k = "tags" then ["a,b"] else if k = "not_tags" then ["c"] else [])
      = ⟨["a", "b"], [], []⟩ := by
  refine ⟨?_, ?_, ?_, ?_, by decide⟩
  · intro args v rest h1
    unfold parse_tag_args
    simp only [h1]
  · intro args v rest h1 h2
    unfold parse_tag_args
    simp only [h1, h2]
  · intro args v rest h1 h2 h3
    unfold parse_tag_args
    simp only [h1, h2, h3]
  · intro args h1 h2 h3
    have hp : parse_tag_args args = ⟨[], [], []⟩ := by
      unfold parse_tag_args
      simp only [h1, h2, h3]
    exact ⟨hp, fun scriptTags => by rw [hp]; rfl⟩

/-- Witness for C3: with `tags` absent and `not_tags=c` the `not_tags`
branch is selected. -/
theorem tag_query_precedence_witness :
    parse_tag_args (fun k => if k = "not_tags" then ["c"] else []) = ⟨[], ["c"], []⟩ :=
  tag_query_precedence.2.1 (fun k => if k = "not_tags" then ["c"] else []) "c" []
    (by decide) (by decide)

/-- C7 counterexample: with a store configured, a Basic header whose
base64 payload `dXNlcjp3cm9uZw==` encodes `user:wrong` — credentials
`demoStore` rejects — does not receive the 401 challenge the claim
asserts: `base64.decodestring` raises a TypeError on the `str` header
slice before any credential handling, so the request fails with an
exception instead. -/
theorem handle_auth_rejected_credentials_no_challenge :
    handle_auth (some demoStore) (some "Basic dXNlcjp3cm9uZw==")
      = .exn "TypeError: expected bytes-like object, not str" := by
  decide

/-- C7 (amended): with no credential store configured `handle_auth` lets
every request proceed without inspecting any header; with a store
configured, an absent Authorization header or a non-Basic header halts
the request with status 401 and the response header
`WWW-Authenticate: Basic realm=cloudomate`; a Basic-scheme header,
whatever credentials its payload encodes, instead raises a TypeError at
`base64.decodestring` (the header slice is a Python 3 `str`), so such a
request fails with an exception and never reaches the 401 challenge or a
credential check. -/
theorem handle_auth_contract (st : CredStore) :
    (∀ hd, handle_auth none hd = .proceed)
    ∧ handle_auth (some st) none = .halted 401 "WWW-Authenticate" "Basic realm=cloudomate"
    ∧ (∀ h : String, pyStartswith h "Basic " = false →
        handle_auth (some st) (some h)
          = .halted 401 "WWW-Authenticate" "Basic realm=cloudomate")
    ∧ (∀ h : String, pyStartswith h "Basic " = true →
        handle_auth (some st) (some h)
          = .exn "TypeError: expected bytes-like object, not str") := by
  refine ⟨fun hd => rfl, rfl, ?_, ?_⟩
  · intro h hb
    unfold handle_auth
    dsimp only
    rw [if_pos (by rw [hb]; rfl)]
    rfl
  · intro h hb
    unfold handle_auth
    dsimp only
    rw [if_neg (by rw [hb]; simp)]
    rfl

/-- Witness for C7 (amended): with a store configured, a non-Basic
scheme header receives the 401 challenge. -/
theorem handle_auth_contract_witness :
    handle_auth (some demoStore) (some "Bearer abc")
      = .halted 401 "WWW-Authenticate" "Basic realm=cloudomate" :=
  (handle_auth_contract demoStore).2.2.1 "Bearer abc" (by decide)

/-- C8: the four verb handlers of `/scripts/name` compute, on every
input, exactly the value of the one generic verb handler applied to
their verb string: they differ only in that constant. -/
theorem verb_handlers_equal_generic :
    ∀ (scripts : List ScriptDescriptor) (fj : Bool) (script_name : String)
      (params : Params) (ex : Params → ExecOutcome),
      handler_get scripts fj script_name params ex
          = genericVerbHandler "get" scripts fj script_name params ex
      ∧ handler_post scripts fj script_name params ex
          = genericVerbHandler "post" scripts fj script_name params ex
      ∧ handler_put scripts fj script_name params ex
          = genericVerbHandler "put" scripts fj script_name params ex
      ∧ handler_delete scripts fj script_name params ex
          = genericVerbHandler "delete" scripts fj script_name params ex := by
  intro scripts fj script_name params ex
  exact ⟨rfl, rfl, rfl, rfl⟩

/-- C9 counterexample: the Basic header `Basic YTpiOmM=` carries the
base64 payload `a:b:c` (two colons) — exactly the claim's scenario — yet
no unpacking error from destructuring `split(':', 2)` occurs: the gate
raises a TypeError at `base64.decodestring` on the `str` header slice
before any split is attempted, so the failure is a TypeError, not the
claimed ValueError (and neither a 401 nor an authentication decision). -/
theorem basic_header_typeerror_before_split :
    handle_auth (some demoStore) (some "Basic YTpiOmM=")
      = .exn "TypeError: expected bytes-like object, not str" := by
  decide

/-- C9 (amended): with a store configured, every request carrying a
Basic Authorization header — in particular one whose base64 payload
encodes credentials with two or more `:` characters — makes the
credential gate fail with a TypeError raised by `base64.decodestring` on
the `str` header slice, before any split or destructuring of a payload
takes place, instead of answering with a 401 challenge or an
authentication decision. -/
theorem handle_auth_basic_header_raises_typeerror (st : CredStore) (h : String)
    (hb : pyStartswith h "Basic " = true) :
    handle_auth (some st) (some h)
      = .exn "TypeError: expected bytes-like object, not str" := by
  unfold handle_auth
  dsimp only
  rw [if_neg (by rw [hb]; simp)]
  rfl

/-- Witness for C9 (amended) at a concrete Basic header. -/
theorem handle_auth_basic_header_raises_typeerror_witness :
    handle_auth (some demoStore) (some "Basic eA==")
      = .exn "TypeError: expected bytes-like object, not str" :=
  handle_auth_basic_header_raises_typeerror demoStore "Basic eA==" (by decide)

theorem is400_mapError (r : Except String Params) :
    is400 (r.mapError PyError.valueError) = false := by
  cases r <;> rfl

/-- C10 counterexample: an `application/json` request with the empty
bytes body `b""` does not take the early return the claim asserts — the
bytes body never equals the `str` `""` in the `in [None, ""]` test — and
is handed to `json.loads`, which raises its `Expecting value` decode
error instead of yielding the empty parameter mapping. -/
theorem handle_params_empty_bytes_body_raises :
    handle_params false json_loads_empty_raises (some "application/json") (some [])
      = .error (.valueError "JSONDecodeError: Expecting value: line 1 column 1 (char 0)") := by
  decide

/-- C10 (amended): `handle_params` raises a 400 exactly when a
Content-Type header is present, does not start with `application/json`,
and force-JSON mode is off (an absent header defaults to
`application/json`, so the right-hand side is false for it); inside the
JSON branch an absent (`None`) body yields the empty parameter mapping
without error, but an empty bytes body `b""` fails the source's
`in [None, ""]` test (bytes never equal str in Python 3) and is handed
to the JSON decoder, whose outcome — for `json.loads` on the empty
document, the `Expecting value` error of the counterexample — is
returned instead of an unconditional empty mapping. -/
theorem handle_params_contract :
    (∀ (fj : Bool) (loads : PyBytes → Except String Params)
        (ct : Option String) (body : Option PyBytes),
        is400 (handle_params fj loads ct body)
          = (!fj && !(pyStartswith (ct.getD "application/json") "application/json")))
    ∧ (∀ (fj : Bool) (loads : PyBytes → Except String Params),
        handle_params fj loads none none = .ok []
        ∧ handle_params fj loads none (some [])
            = (loads []).mapError PyError.valueError) := by
  constructor
  · intro fj loads ct body
    unfold handle_params
    cases hb : pyStartswith (ct.getD "application/json") "application/json" with
    | true =>
      rw [if_pos (by rw [hb]; simp)]
      cases body with
      | none => simp [is400]
      | some b =>
        dsimp only
        rw [if_neg (by simp [pyEqBytesStr]), is400_mapError]
        simp
    | false =>
      cases fj with
      | true =>
        rw [if_pos (by rw [hb]; simp)]
        cases body with
        | none => simp [is400]
        | some b =>
          dsimp only
          rw [if_neg (by simp [pyEqBytesStr]), is400_mapError]
          simp
      | false =>
        rw [if_neg (by rw [hb]; simp)]
        simp [is400]
  · intro fj loads
    exact ⟨rfl, rfl⟩

end Cloudomate
